import Mathlib

/-!
Shallow embedding of the core of `src/main.rs` (tickrs), a counter/gauge
service backed by two SQLite tables `c` and `g`.  A table is modelled as an
association list of rows `(nano_id, value)`; the spec declares values
unbounded signed 64-bit integers with no clamping, so they are embedded as
`Int`.  Each SQL statement of the source is one atomic step on this state;
`updated_at` timestamps play no role in any claim and are omitted.
-/

/-- One SQLite table (`c` or `g`): rows `(nano_id, value)` in insertion
order. -/
abbrev Store := List (String × Int)

namespace Store

/-- `SELECT value FROM t WHERE nano_id = ?1` (via `fetch_one` or
`fetch_optional`): the value of the first row whose `nano_id` matches, if
any. -/
def get (s : Store) (id : String) : Option Int :=
  (s.find? (fun p => p.1 == id)).map Prod.snd

/-- `UPDATE t SET value = value + d WHERE nano_id = ?1`: adds `d` to the
value of every matching row. -/
def updAdd : Store → String → Int → Store
  | [], _, _ => []
  | p :: t, id, d => (if p.1 == id then (p.1, p.2 + d) else p) :: updAdd t id d

/-- `INSERT INTO t ( nano_id, value ) VALUES ( ?1, ?2 )`, the body of
`create_with_id_and_value` (src/main.rs:193-208 and 302-317). -/
def ins (s : Store) (id : String) (v : Int) : Store :=
  s ++ [(id, v)]

end Store

/-- `Counter::increment_or_create` (src/main.rs:245-259): one atomic
`UPDATE c SET value = value + 1 WHERE nano_id = ?1 RETURNING value`; when
it matches no row, a separate `create_with_id_and_value(id, pool, 1)`.
Returns the value reported to the caller and the table afterwards. -/
def Counter.increment_or_create (s : Store) (id : String) : Int × Store :=
  match s.get id with
  | some v => (v + 1, s.updAdd id 1)
  | none => (1, s.ins id 1)

/-- `Gauge::decrement_or_create` (src/main.rs:354-368): atomic
`UPDATE g SET value = value - 1 ... RETURNING value`; on a miss it calls
`create_with_id_and_value(id, pool, 1)` — the inserted value is the
literal `1`, not `-1`. -/
def Gauge.decrement_or_create (s : Store) (id : String) : Int × Store :=
  match s.get id with
  | some v => (v - 1, s.updAdd id (-1))
  | none => (1, s.ins id 1)

/-- `Gauge::increment_or_create` (src/main.rs:369-383). -/
def Gauge.increment_or_create (s : Store) (id : String) : Int × Store :=
  match s.get id with
  | some v => (v + 1, s.updAdd id 1)
  | none => (1, s.ins id 1)

/-- `CounterLike::valid_id` (src/main.rs:118-121):
`!id.is_empty() && id.len() < 255 && id.is_ascii()`.  A candidate is its
UTF-8 byte sequence; `id.len()` is the byte count and `id.is_ascii()`
holds iff every byte is below 128. -/
def valid_id (id : List Nat) : Bool :=
  !id.isEmpty && id.length < 255 && id.all (fun b => b < 128)

/-- The pre-baked static assets `../out.png`, `../out.jpg`, `../out.gif`
compiled into the binary by `include_bytes!`.  Their byte contents are
not part of the source tree, so each is an abstract token; every claim
only needs that each one is a single fixed constant. -/
inductive Asset
  | outPng
  | outJpg
  | outGif
  deriving DecidableEq

/-- A response body. -/
inductive Body
  | bytes (a : Asset)
  | text (s : String)
  | json (v : Int)
  deriving DecidableEq

/-- The parts of an `HttpResponse` the claims speak about: status code,
`Content-Type` header, body.  The `Last-Modified` header carries only the
omitted timestamp. -/
structure HttpResp where
  status : Nat
  contentType : Option String
  body : Body
  deriving DecidableEq

/-- The in-memory value object handed to the renderer (kind is carried by
which rendering function is applied, as in the source's two impls). -/
structure Entity where
  id : String
  value : Int
  deriving DecidableEq

/-- `CounterLike::as_format` (src/main.rs:128-156), shared by both kinds.
The `txt` branch renders `self.to_string()`, whose `Display` impl formats
the `i64` value with `{:?}` — its decimal string; `json` serialises the
bare number. -/
def as_format (e : Entity) (ext : String) : HttpResp :=
  match ext with
  | "png" => ⟨200, some "image/png", Body.bytes Asset.outPng⟩
  | "jpg" => ⟨200, some "image/png", Body.bytes Asset.outJpg⟩
  | "gif" => ⟨200, some "image/gif", Body.bytes Asset.outGif⟩
  | "svg" => ⟨200, some "image/svg+xml; charset=utf-8",
      Body.text "<svg xmlns=\"http://www.w3.org/2000/svg\"/>"⟩
  | "json" => ⟨200, some "application/json", Body.json e.value⟩
  | "txt" => ⟨200, some "text/plain; charset=utf-8", Body.text (toString e.value)⟩
  | _ => ⟨404, none, Body.text ""⟩

/-- `Counter::as_openmetrics` (src/main.rs:228-241): body is
`format!("# TYPE {} counter\n{}_count {}", self.id(), self.id(), self)`,
the trailing argument displayed as the decimal value. -/
def Counter.as_openmetrics (e : Entity) : HttpResp :=
  ⟨200, some "text/plain; version=0.0.4; charset=utf-8",
    Body.text ("# TYPE " ++ e.id ++ " counter\n" ++ e.id ++ "_count " ++ toString e.value)⟩

/-- `Gauge::as_openmetrics` (src/main.rs:337-350), identical but for the
`gauge` literal. -/
def Gauge.as_openmetrics (e : Entity) : HttpResp :=
  ⟨200, some "text/plain; version=0.0.4; charset=utf-8",
    Body.text ("# TYPE " ++ e.id ++ " gauge\n" ++ e.id ++ "_count " ++ toString e.value)⟩

/-- The exposition body as the spec words it: a `# TYPE <identifier>
<kind>` line followed by `<identifier>_count <value>`, with the kind a
lowercase literal and the value decimal. -/
def specOpenMetricsBody (kindLit id : String) (v : Int) : String :=
  "# TYPE " ++ id ++ " " ++ kindLit ++ "\n" ++ id ++ "_count " ++ toString v

/-- `SELECT count(id) FROM t`: `nano_id` is non-null on every row, so the
count is over all rows of the table. -/
def countRows : Store → Nat
  | [] => 0
  | _ :: rest => countRows rest + 1

/-- `get_total` (src/main.rs:399-411):
`SELECT (SELECT count(id) FROM c) + (SELECT count(id) FROM g) as value`,
rendered as a decimal 200 body.  (The `Err` branch of `fetch_one` is an
I/O failure of the pool, which has no counterpart in this state model.) -/
def get_total (c g : Store) : HttpResp :=
  ⟨200, none, Body.text (toString (countRows c + countRows g))⟩

/-- The multiset of values underlying
`SELECT value FROM c UNION SELECT value from g`.  SQL `UNION` removes
duplicate values, which cannot change a maximum, so the embedding keeps
the multiset. -/
def unionValues (c g : Store) : List Int :=
  c.map Prod.snd ++ g.map Prod.snd

/-- `get_highest` (src/main.rs:413-426): `SELECT value FROM c UNION
SELECT value from g ORDER BY value DESC LIMIT 1` via `fetch_one`; on an
empty result set `fetch_one` fails and the route answers 500 with an
empty body. -/
def get_highest (c g : Store) : HttpResp :=
  match (unionValues c g).max? with
  | some m => ⟨200, none, Body.text (toString m)⟩
  | none => ⟨500, none, Body.text ""⟩

/-- The store-touching HTTP operations: explicit creates (`POST /c`,
`POST /g`, which insert value 0 under a freshly generated id) and the
increment/decrement-or-create routes. -/
inductive ApiOp
  | newCounter (id : String)
  | incCounter (id : String)
  | newGauge (id : String)
  | incGauge (id : String)
  | decGauge (id : String)

/-- Effect of one operation on the pair of tables `(c, g)`. -/
def applyOp (st : Store × Store) : ApiOp → Store × Store
  | ApiOp.newCounter id => (st.1.ins id 0, st.2)
  | ApiOp.incCounter id => ((Counter.increment_or_create st.1 id).2, st.2)
  | ApiOp.newGauge id => (st.1, st.2.ins id 0)
  | ApiOp.incGauge id => (st.1, (Gauge.increment_or_create st.2 id).2)
  | ApiOp.decGauge id => (st.1, (Gauge.decrement_or_create st.2 id).2)

/-- Run a sequence of operations from a starting state. -/
def runOps : Store × Store → List ApiOp → Store × Store
  | st, [] => st
  | st, op :: rest => runOps (applyOp st op) rest

/-- `n` calls of `Counter::increment_or_create` on one identifier, in the
order the database serializes their atomic statements; yields the list of
values the calls report and the final table. -/
def runIncs (s : Store) (id : String) : Nat → List Int × Store
  | 0 => ([], s)
  | n + 1 =>
    let r := Counter.increment_or_create s id
    let rest := runIncs r.2 id n
    (r.1 :: rest.1, rest.2)

namespace Store

theorem get_cons (p : String × Int) (t : Store) (id : String) :
    Store.get (p :: t) id = if p.1 == id then some p.2 else Store.get t id := by
  by_cases h : p.1 == id <;> simp [Store.get, List.find?_cons, h]

theorem get_updAdd (s : Store) (id : String) (d : Int) :
    (s.updAdd id d).get id = (s.get id).map (· + d) := by
  induction s with
  | nil => rfl
  | cons p t ih =>
    by_cases h : p.1 == id
    · simp [Store.updAdd, Store.get_cons, h]
    · simp [Store.updAdd, Store.get_cons, h, ih]

theorem get_ins_of_none (s : Store) (id : String) (v : Int)
    (h : s.get id = none) : (s.ins id v).get id = some v := by
  have hf : s.find? (fun p => p.1 == id) = none := by
    cases hf : s.find? (fun p => p.1 == id) with
    | none => rfl
    | some p => simp [Store.get, hf] at h
  simp [Store.get, Store.ins, List.find?_append, hf, List.find?_cons]

end Store

theorem countRows_eq_length (s : Store) : countRows s = s.length := by
  induction s with
  | nil => rfl
  | cons p t ih => simp [countRows, ih]

/-- After the `UPDATE` hits an existing row, the call reports the
incremented value and leaves the row at it. -/
theorem increment_or_create_existing (s : Store) (id : String) (v : Int)
    (h : s.get id = some v) :
    Counter.increment_or_create s id = (v + 1, s.updAdd id 1) ∧
    (s.updAdd id 1).get id = some (v + 1) := by
  constructor
  · simp [Counter.increment_or_create, h]
  · simp [Store.get_updAdd, h]

/-- Serialized run over an existing row: the reported values are
`v0 + 1, v0 + 2, …` and the row ends at `v0 + n`. -/
theorem runIncs_existing (id : String) (n : Nat) :
    ∀ (s : Store) (v0 : Int), s.get id = some v0 →
      (runIncs s id n).1 = (List.range n).map (fun i : Nat => v0 + 1 + i) ∧
      (runIncs s id n).2.get id = some (v0 + n) := by
  induction n with
  | zero => intro s v0 h; simpa [runIncs] using h
  | succ n ih =>
    intro s v0 h
    have hstep := increment_or_create_existing s id v0 h
    have hrest := ih (s.updAdd id 1) (v0 + 1) hstep.2
    constructor
    · simp only [runIncs, hstep.1, hrest.1, List.range_succ_eq_map, List.map_cons,
        List.map_map]
      congr 1
      · push_cast
        ring
      · apply List.map_congr_left
        intro i _
        simp only [Function.comp_apply]
        push_cast
        ring
    · simp only [runIncs, hstep.1, hrest.2]
      congr 1
      push_cast
      ring

theorem string_append3 (x a b c : String) :
    x ++ a ++ b ++ c = x ++ (a ++ b ++ c) := by
  calc x ++ a ++ b ++ c
      = x ++ (a ++ b) ++ c := by rw [String.append_assoc x a b]
    _ = x ++ (a ++ b ++ c) := by rw [String.append_assoc x (a ++ b) c]

/-- C1: for every pre-existing identifier and every K ≥ 1, K concurrent
`Counter::increment_or_create` calls — each one atomic `UPDATE ...
RETURNING` statement, so any interleaving is exactly a serialization order
of the K atomic read-modify-write steps — leave the stored value at
exactly `initial + K`, the calls reporting the distinct values
`initial + 1, …, initial + K`: no lost updates. -/
theorem concurrent_increments_serialize (s : Store) (id : String) (v0 : Int)
    (K : Nat) (_hK : 1 ≤ K) (h : s.get id = some v0) :
    (runIncs s id K).2.get id = some (v0 + K) ∧
    (runIncs s id K).1 = (List.range K).map (fun i : Nat => v0 + 1 + i) := by
  have hrun := runIncs_existing id K s v0 h
  exact ⟨hrun.2, hrun.1⟩

/-- Witness for C1 at `s = [("x", 5)]`, `K = 3`: the row ends at 8. -/
theorem concurrent_increments_serialize_witness :
    (1 ≤ 3 ∧ Store.get [("x", (5 : Int))] "x" = some 5) ∧
    Store.get (runIncs [("x", 5)] "x" 3).2 "x" = some (5 + (3 : Nat)) ∧
    (runIncs [("x", 5)] "x" 3).1 = (List.range 3).map (fun i : Nat => 5 + 1 + i) :=
  ⟨⟨by decide, rfl⟩, concurrent_increments_serialize [("x", 5)] "x" 5 3 (by decide) rfl⟩

/-- C5: N sequential increments starting from an identifier never seen
before report exactly the strictly increasing values 1, 2, …, N, the
first call returning 1. -/
theorem sequential_increments_from_fresh (s : Store) (id : String) (N : Nat)
    (_hN : 1 ≤ N) (h : s.get id = none) :
    (runIncs s id N).1 = (List.range N).map (fun i : Nat => (i : Int) + 1) := by
  cases N with
  | zero => simp [runIncs]
  | succ n =>
    have h1 : (s.ins id 1).get id = some 1 := Store.get_ins_of_none s id 1 h
    have hrest := runIncs_existing id n (s.ins id 1) 1 h1
    simp only [runIncs, Counter.increment_or_create, h, hrest.1,
      List.range_succ_eq_map, List.map_cons, List.map_map]
    congr 1
    apply List.map_congr_left
    intro i _
    simp only [Function.comp_apply]
    push_cast
    ring

/-- Witness for C5 at the empty store, `N = 3`: the calls report 1, 2, 3. -/
theorem sequential_increments_from_fresh_witness :
    (1 ≤ 3 ∧ Store.get [] "a" = none) ∧
    (runIncs [] "a" 3).1 = (List.range 3).map (fun i : Nat => (i : Int) + 1) :=
  ⟨⟨by decide, rfl⟩, sequential_increments_from_fresh [] "a" 3 (by decide) rfl⟩

/-- C2: on a fresh Gauge identifier the first `decrement_or_create`
creates the row with value 1 and reports 1, not −1. -/
theorem gauge_first_decrement_returns_one (s : Store) (id : String)
    (h : s.get id = none) :
    Gauge.decrement_or_create s id = (1, s.ins id 1) ∧
    ((Gauge.decrement_or_create s id).2).get id = some 1 ∧
    (Gauge.decrement_or_create s id).1 ≠ -1 := by
  have h1 : Gauge.decrement_or_create s id = (1, s.ins id 1) := by
    simp [Gauge.decrement_or_create, h]
  refine ⟨h1, ?_, ?_⟩
  · rw [h1]
    exact Store.get_ins_of_none s id 1 h
  · rw [h1]
    show (1 : Int) ≠ -1
    decide

/-- Witness for C2 at the empty store. -/
theorem gauge_first_decrement_returns_one_witness :
    Store.get [] "g1" = none ∧
    (Gauge.decrement_or_create [] "g1" = (1, Store.ins [] "g1" 1) ∧
      Store.get (Gauge.decrement_or_create [] "g1").2 "g1" = some 1 ∧
      (Gauge.decrement_or_create [] "g1").1 ≠ -1) :=
  ⟨rfl, gauge_first_decrement_returns_one [] "g1" rfl⟩

/-- C3 counterexample: on the empty store the decrement's `UPDATE` matches
zero rows, yet the inserted row holds the value 1, not the delta −1 — the
insert path is not `value := delta` for the decrement. -/
theorem insert_value_equals_delta_counterexample :
    Store.get [] "a" = none ∧
    Gauge.decrement_or_create [] "a" = (1, [("a", 1)]) ∧
    ¬ Gauge.decrement_or_create [] "a" = (-1, [("a", -1)]) := by
  refine ⟨rfl, rfl, ?_⟩
  decide

/-- C3 amended: whenever the atomic update matches zero rows, each of the
three mutation operations inserts a new row whose value is the literal 1 —
equal to the delta for the two increments, but 1 rather than −1 for the
Gauge decrement. -/
theorem insert_value_is_one (s : Store) (id : String) (h : s.get id = none) :
    Counter.increment_or_create s id = (1, s.ins id 1) ∧
    Gauge.increment_or_create s id = (1, s.ins id 1) ∧
    Gauge.decrement_or_create s id = (1, s.ins id 1) := by
  refine ⟨?_, ?_, ?_⟩ <;>
    simp [Counter.increment_or_create, Gauge.increment_or_create,
      Gauge.decrement_or_create, h]

/-- Witness for the amended C3 at the empty store. -/
theorem insert_value_is_one_witness :
    Store.get [] "b" = none ∧
    (Counter.increment_or_create [] "b" = (1, Store.ins [] "b" 1) ∧
      Gauge.increment_or_create [] "b" = (1, Store.ins [] "b" 1) ∧
      Gauge.decrement_or_create [] "b" = (1, Store.ins [] "b" 1)) :=
  ⟨rfl, insert_value_is_one [] "b" rfl⟩

/-- C4: `valid_id` accepts a candidate iff it is non-empty, shorter than
255 bytes, and every byte is ASCII; it rejects the empty string, 255-byte
and longer strings, and any string holding a non-ASCII byte, and accepts
everything else under 255 bytes. -/
theorem valid_id_iff (id : List Nat) :
    valid_id id = true ↔ id ≠ [] ∧ id.length < 255 ∧ ∀ b ∈ id, b < 128 := by
  simp [valid_id, List.isEmpty_iff, List.all_eq_true, and_assoc]

/-- C6: `get_highest` answers 200 with the maximum value across the union
of all Counter rows and all Gauge rows, and answers 500 (not a default 0)
when the store holds no entities at all. -/
theorem get_highest_correct (c g : Store) :
    (unionValues c g = [] ∧ get_highest c g = ⟨500, none, Body.text ""⟩) ∨
    (∃ m, m ∈ unionValues c g ∧ (∀ x ∈ unionValues c g, x ≤ m) ∧
      get_highest c g = ⟨200, none, Body.text (toString m)⟩) := by
  cases hm : (unionValues c g).max? with
  | none =>
    left
    exact ⟨List.max?_eq_none_iff.mp hm, by simp [get_highest, hm]⟩
  | some m =>
    right
    refine ⟨m, List.max?_mem (fun a b => max_choice a b) hm, ?_,
      by simp [get_highest, hm]⟩
    exact fun x hx =>
      (List.max?_le_iff (fun a b c => max_le_iff) hm).mp le_rfl x hx

/-- C7: after any sequence of creates, increments and decrements starting
from the empty store, `get_total` answers the number of Counter rows plus
the number of Gauge rows — a row count, not a sum of values. -/
theorem total_count_is_row_count (ops : List ApiOp) :
    get_total (runOps ([], []) ops).1 (runOps ([], []) ops).2 =
      ⟨200, none, Body.text (toString ((runOps ([], []) ops).1.length +
        (runOps ([], []) ops).2.length))⟩ := by
  simp [get_total, countRows_eq_length]

/-- C8: for the tags png, jpg, gif and svg the body is a fixed constant
independent of the entity's value: two entities with the same identifier
and any two values render byte-identical bodies. -/
theorem image_bodies_value_independent (id : String) (v1 v2 : Int)
    (ext : String)
    (hext : ext = "png" ∨ ext = "jpg" ∨ ext = "gif" ∨ ext = "svg") :
    (as_format ⟨id, v1⟩ ext).body = (as_format ⟨id, v2⟩ ext).body := by
  rcases hext with h | h | h | h <;> subst h <;> rfl

/-- Witness for C8 at values 0 and 7 under the png tag. -/
theorem image_bodies_value_independent_witness :
    (("png" : String) = "png" ∨ ("png" : String) = "jpg" ∨
      ("png" : String) = "gif" ∨ ("png" : String) = "svg") ∧
    (as_format ⟨"a", 0⟩ "png").body = (as_format ⟨"a", 7⟩ "png").body :=
  ⟨Or.inl rfl, image_bodies_value_independent "a" 0 7 "png" (Or.inl rfl)⟩

/-- C9: both open-metrics renderers produce exactly the spec's exposition
body — a `# TYPE <identifier> <kind>` line then `<identifier>_count
<value>`, with the lowercase kind literal and the decimal value — as a
200 text response. -/
theorem openmetrics_matches_spec (e : Entity) :
    Counter.as_openmetrics e =
      ⟨200, some "text/plain; version=0.0.4; charset=utf-8",
        Body.text (specOpenMetricsBody "counter" e.id e.value)⟩ ∧
    Gauge.as_openmetrics e =
      ⟨200, some "text/plain; version=0.0.4; charset=utf-8",
        Body.text (specOpenMetricsBody "gauge" e.id e.value)⟩ := by
  have hc := string_append3 ("# TYPE " ++ e.id) " " "counter" "\n"
  have hg := string_append3 ("# TYPE " ++ e.id) " " "gauge" "\n"
  have hlitc : (" " ++ "counter" ++ "\n" : String) = " counter\n" := rfl
  have hlitg : (" " ++ "gauge" ++ "\n" : String) = " gauge\n" := rfl
  constructor
  · simp only [Counter.as_openmetrics, specOpenMetricsBody]
    rw [hc, hlitc]
  · simp only [Gauge.as_openmetrics, specOpenMetricsBody]
    rw [hg, hlitg]

/-- C10: the jpg tag serves the pre-baked JPEG asset, but with the
response `Content-Type` header set to `image/png`, not `image/jpeg`. -/
theorem jpg_served_with_png_content_type (e : Entity) :
    as_format e "jpg" = ⟨200, some "image/png", Body.bytes Asset.outJpg⟩ ∧
    (as_format e "jpg").contentType ≠ some "image/jpeg" := by
  have h1 : as_format e "jpg" = ⟨200, some "image/png", Body.bytes Asset.outJpg⟩ := rfl
  refine ⟨h1, ?_⟩
  rw [h1]
  decide
